import Mathlib

/-!
Shallow embedding of the semantic-analysis core of the repository
(`src/Controller/Driver.py`, class `SemanticAnalyzer`).

The repository ships only `Driver.py`; the modules it imports
(`Model.data_types`, `Model.object_types`, `Model.scope`,
`Model.symbol_table`, `Language.*`) are absent, so those parts are
modelled from the spec (each such definition says so in its doc comment).
`Driver.py` itself is embedded literally: each `visitX` method becomes a
Lean function of the same shape, and the Python operators it applies to
type-marker objects (`or`, `and`, `==`, `<`, `+`, ...) are given their
Python semantics on the values that can actually flow through the
analyzer.
-/

namespace Compiscript

/-- The static type-marker classes `NumType`, `StringType`, `BooleanType`,
`NilType`. Modelled from the spec: `Model.data_types` is not in the
repository; per the spec's data model the types are immutable tagged
values compared by tag, with no further operator structure. -/
inductive Ty
  | NumT
  | StringT
  | BooleanT
  | NilT
deriving DecidableEq, Repr

/-- The Python values that flow through `SemanticAnalyzer`'s expression
visitors: a type-marker object, a Python string (the `"Unknown"` sentinel
returned by `visitPrimary`), a Python `bool` (produced by `==`/`!=`/`<`/...),
or Python `None` (the implicit return of an unhandled branch). -/
inductive PyVal
  | ty (t : Ty)
  | str (s : String)
  | pyBool (b : Bool)
  | none
deriving DecidableEq, Repr

/-- Python truthiness of the values above: a plain object is truthy (the
modelled type-marker classes define no `__bool__`), a string is truthy iff
nonempty, a bool is itself, `None` is falsy. -/
def truthy : PyVal → Bool
  | .ty _ => true
  | .str s => !s.isEmpty
  | .pyBool b => b
  | .none => false

/-- Python `a or b`: `a` if `a` is truthy, else `b`. -/
def pyOr (a b : PyVal) : PyVal :=
  if truthy a then a else b

/-- Python `a and b`: `b` if `a` is truthy, else `a`. -/
def pyAnd (a b : PyVal) : PyVal :=
  if truthy a then b else a

/-- Python `a == b` on the analyzer's values. Type markers compare by tag
(modelled from the spec: the data model says types are "compared by tag");
values of different shapes compare unequal, `None == None` is `True`. -/
def pyEq : PyVal → PyVal → Bool
  | .ty t, .ty u => t == u
  | .str s, .str u => s == u
  | .pyBool a, .pyBool b => a == b
  | .none, .none => true
  | _, _ => false

/-- The uncaught Python exceptions the analyzer can raise: a `TypeError`
from applying an operator to unsupported operands, or the generic
`Exception` raised by `visitVarDecl` on a redeclaration. -/
inductive PyErr
  | typeError
  | redecl (name : String)
deriving DecidableEq, Repr

/-- Python `a + b` on the analyzer's values: string concatenation works;
every other combination that can reach the additive layer (type-marker
objects without arithmetic methods, `None`) raises `TypeError`. Python
`bool`s cannot reach this layer: they are produced only at the equality
and relational layers, which sit above `term`/`factor` in the grammar. -/
def pyAdd : PyVal → PyVal → Except PyErr PyVal
  | .str s, .str u => .ok (.str (s ++ u))
  | _, _ => .error .typeError

/-- Python `-`, `*`, `/`, `%` on the analyzer's values: on every operand
pair that can reach the `term`/`factor` layers (type markers, strings such
as `"Unknown"`, `None`) Python raises `TypeError` (a format string with no
placeholders also raises on `%`). -/
def pyNumericOp (_a _b : PyVal) : Except PyErr PyVal :=
  .error .typeError

/-- Python `a < b`: strings compare lexicographically, bools as the
integers 0/1; type markers (no ordering methods) and `None` raise. -/
def pyLt : PyVal → PyVal → Except PyErr PyVal
  | .str s, .str u => .ok (.pyBool (decide (s < u)))
  | .pyBool a, .pyBool b => .ok (.pyBool (!a && b))
  | _, _ => .error .typeError

/-- Python `a > b`. -/
def pyGt : PyVal → PyVal → Except PyErr PyVal
  | .str s, .str u => .ok (.pyBool (decide (u < s)))
  | .pyBool a, .pyBool b => .ok (.pyBool (a && !b))
  | _, _ => .error .typeError

/-- Python `a <= b`. -/
def pyLe : PyVal → PyVal → Except PyErr PyVal
  | .str s, .str u => .ok (.pyBool (decide (s ≤ u)))
  | .pyBool a, .pyBool b => .ok (.pyBool (!a || b))
  | _, _ => .error .typeError

/-- Python `a >= b`. -/
def pyGe : PyVal → PyVal → Except PyErr PyVal
  | .str s, .str u => .ok (.pyBool (decide (u ≤ s)))
  | .pyBool a, .pyBool b => .ok (.pyBool (a || !b))
  | _, _ => .error .typeError

/-! ## The syntax tree

Node shapes follow the grammar as `Driver.py` consumes it: each
precedence layer is a first operand plus a list of (operator text,
operand) pairs; `primary` is a `NUMBER`, a `STRING`, or a bare node whose
source text the visitor inspects (identifiers, keywords, parenthesized
expressions all reach `visitPrimary` only through `getText()`). -/

/-- A `primary` node: `NUMBER` literal, `STRING` literal, or any other
primary carrying its source text. -/
inductive Prim
  | num
  | strLit
  | word (text : String)
deriving DecidableEq, Repr

/-- A `call` node (suffixes are ignored by the visitor, which only asks
for the `primary` child). -/
inductive Call
  | cprim (p : Prim)
deriving DecidableEq, Repr

/-- A `unary` node: either a `call`, or a prefix-operator form
(`'!' unary` / `'-' unary`) whose operand `visitUnary` never visits. -/
inductive Unary
  | ucall (c : Call)
  | unop (op : String)
deriving DecidableEq, Repr

/-- A `factor` node: unaries joined by `*`, `/`, `%`. -/
structure Factor where
  first : Unary
  rest : List (String × Unary)
deriving DecidableEq, Repr

/-- A `term` node: factors joined by `+`, `-`. -/
structure Term where
  first : Factor
  rest : List (String × Factor)
deriving DecidableEq, Repr

/-- A `comparison` node: terms joined by `<`, `>`, `<=`, `>=`. -/
structure Comparison where
  first : Term
  rest : List (String × Term)
deriving DecidableEq, Repr

/-- An `equality` node: comparisons joined by `==`, `!=`. -/
structure Equality where
  first : Comparison
  rest : List (String × Comparison)
deriving DecidableEq, Repr

/-- A `logic_and` node: equalities joined by `and`. -/
structure LogicAnd where
  first : Equality
  rest : List Equality
deriving DecidableEq, Repr

/-- A `logic_or` node: logic_ands joined by `or`. -/
structure LogicOr where
  first : LogicAnd
  rest : List LogicAnd
deriving DecidableEq, Repr

/-- An `assignment` node: either the `IDENTIFIER '=' assignment` form
(whose children `visitAssignment` never visits) or a `logic_or`. -/
inductive Assignment
  | assignForm
  | orExpr (e : LogicOr)
deriving DecidableEq, Repr

/-- An `expression` node: an `assignment` child, or none. -/
inductive Expression
  | ofAssign (a : Assignment)
  | noAssign
deriving DecidableEq, Repr

/-! ## The expression visitors of `SemanticAnalyzer` (`Driver.py`) -/

/-- Method `visitPrimary` (Driver.py 208-218): `NUMBER` → `NumType()`, `STRING` →
`StringType()`, text `true`/`false` → `BooleanType()`, text `nil` →
`NilType()` (the `getText() == None` disjunct can never hold for a Python
string), anything else → the Python string `"Unknown"`. -/
def visitPrimary : Prim → PyVal
  | .num => .ty .NumT
  | .strLit => .ty .StringT
  | .word t =>
    if t = "true" ∨ t = "false" then .ty .BooleanT
    else if t = "nil" then .ty .NilT
    else .str "Unknown"

/-- Method `visitCall` (Driver.py 204-206): visits the `primary` child. -/
def visitCall : Call → PyVal
  | .cprim p => visitPrimary p

/-- Method `visitUnary` (Driver.py 200-202): only the `call` branch is handled;
a prefix-operator unary falls off the end and returns Python `None`. -/
def visitUnary : Unary → PyVal
  | .ucall c => visitCall c
  | .unop _ => .none

/-- The `if operator == '*' / '/' / '%'` chain of `visitFactor`
(Driver.py 190-196); with no `else`, an unrecognized operator leaves the
accumulator unchanged. -/
def applyFactorOp (op : String) (a b : PyVal) : Except PyErr PyVal :=
  if op = "*" then pyNumericOp a b
  else if op = "/" then pyNumericOp a b
  else if op = "%" then pyNumericOp a b
  else .ok a

/-- The loop of `visitFactor` (Driver.py 182-196). -/
def foldFactor (acc : PyVal) : List (String × Unary) → Except PyErr PyVal
  | [] => .ok acc
  | (op, u) :: rest => do
    let r := visitUnary u
    let acc2 ← applyFactorOp op acc r
    foldFactor acc2 rest

/-- Method `visitFactor` (Driver.py 178-198). -/
def visitFactor (f : Factor) : Except PyErr PyVal :=
  foldFactor (visitUnary f.first) f.rest

/-- The `if operator == '+' / '-'` chain of `visitTerm`
(Driver.py 169-173). -/
def applyTermOp (op : String) (a b : PyVal) : Except PyErr PyVal :=
  if op = "+" then pyAdd a b
  else if op = "-" then pyNumericOp a b
  else .ok a

/-- The loop of `visitTerm` (Driver.py 161-173). -/
def foldTerm (acc : PyVal) : List (String × Factor) → Except PyErr PyVal
  | [] => .ok acc
  | (op, f) :: rest => do
    let r ← visitFactor f
    let acc2 ← applyTermOp op acc r
    foldTerm acc2 rest

/-- Method `visitTerm` (Driver.py 157-175). -/
def visitTerm (t : Term) : Except PyErr PyVal := do
  let acc ← visitFactor t.first
  foldTerm acc t.rest

/-- The `if operator == '<' / '>' / '<=' / '>='` chain of
`visitComparison` (Driver.py 140-148). -/
def applyCompOp (op : String) (a b : PyVal) : Except PyErr PyVal :=
  if op = "<" then pyLt a b
  else if op = ">" then pyGt a b
  else if op = "<=" then pyLe a b
  else if op = ">=" then pyGe a b
  else .ok a

/-- The loop of `visitComparison` (Driver.py 132-152), including the
`if not result: break` that stops the fold on a falsy accumulator. -/
def foldComparison (acc : PyVal) : List (String × Term) → Except PyErr PyVal
  | [] => .ok acc
  | (op, t) :: rest => do
    let r ← visitTerm t
    let acc2 ← applyCompOp op acc r
    if truthy acc2 then foldComparison acc2 rest else .ok acc2

/-- Method `visitComparison` (Driver.py 128-154). -/
def visitComparison (c : Comparison) : Except PyErr PyVal := do
  let acc ← visitTerm c.first
  foldComparison acc c.rest

/-- The `if operator == '==' / '!='` chain of `visitEquality`
(Driver.py 114-118); Python `==`/`!=` return a `bool`. -/
def applyEqOp (op : String) (a b : PyVal) : PyVal :=
  if op = "==" then .pyBool (pyEq a b)
  else if op = "!=" then .pyBool (!pyEq a b)
  else a

/-- The loop of `visitEquality` (Driver.py 106-122), with its
`if not result: break`. -/
def foldEquality (acc : PyVal) : List (String × Comparison) → Except PyErr PyVal
  | [] => .ok acc
  | (op, c) :: rest => do
    let r ← visitComparison c
    let acc2 := applyEqOp op acc r
    if truthy acc2 then foldEquality acc2 rest else .ok acc2

/-- Method `visitEquality` (Driver.py 102-124). -/
def visitEquality (e : Equality) : Except PyErr PyVal := do
  let acc ← visitComparison e.first
  foldEquality acc e.rest

/-- The loop of `visitLogic_and` (Driver.py 91-97): Python `and` on the
accumulator, with `if not result: break`. -/
def foldLogicAnd (acc : PyVal) : List Equality → Except PyErr PyVal
  | [] => .ok acc
  | e :: rest => do
    let r ← visitEquality e
    let acc2 := pyAnd acc r
    if truthy acc2 then foldLogicAnd acc2 rest else .ok acc2

/-- Method `visitLogic_and` (Driver.py 87-99). -/
def visitLogic_and (a : LogicAnd) : Except PyErr PyVal := do
  let acc ← visitEquality a.first
  foldLogicAnd acc a.rest

/-- The loop of `visitLogic_or` (Driver.py 76-82): Python `or` on the
accumulator, with `if result: break` — the fold stops as soon as the
accumulator is truthy, skipping the remaining operands. -/
def foldLogicOr (acc : PyVal) : List LogicAnd → Except PyErr PyVal
  | [] => .ok acc
  | a :: rest => do
    let r ← visitLogic_and a
    let acc2 := pyOr acc r
    if truthy acc2 then .ok acc2 else foldLogicOr acc2 rest

/-- Method `visitLogic_or` (Driver.py 72-84). -/
def visitLogic_or (e : LogicOr) : Except PyErr PyVal := do
  let acc ← visitLogic_and e.first
  foldLogicOr acc e.rest

/-- Method `visitAssignment` (Driver.py 68-70): only the `logic_or` branch is
handled; the assignment form returns Python `None`. -/
def visitAssignment : Assignment → Except PyErr PyVal
  | .orExpr e => visitLogic_or e
  | .assignForm => .ok .none

/-- Method `visitExpression` (Driver.py 64-66): only the `assignment` branch is
handled. -/
def visitExpression : Expression → Except PyErr PyVal
  | .ofAssign a => visitAssignment a
  | .noAssign => .ok .none

/-! ## Wrappers building one-operand chains, for concrete inputs -/

/-- A `unary` that is just a primary. -/
def unaryOfPrim (p : Prim) : Unary := .ucall (.cprim p)

/-- A `factor` that is just a primary. -/
def factorOfPrim (p : Prim) : Factor := ⟨unaryOfPrim p, []⟩

/-- A `term` that is just a primary. -/
def termOfPrim (p : Prim) : Term := ⟨factorOfPrim p, []⟩

/-- A `comparison` that is just a primary. -/
def compOfPrim (p : Prim) : Comparison := ⟨termOfPrim p, []⟩

/-- An `equality` that is just a primary. -/
def eqOfPrim (p : Prim) : Equality := ⟨compOfPrim p, []⟩

/-- A `logic_and` that is just a primary. -/
def andOfPrim (p : Prim) : LogicAnd := ⟨eqOfPrim p, []⟩

/-- An `expression` wrapping a whole `logic_or`. -/
def exprOfOr (e : LogicOr) : Expression := .ofAssign (.orExpr e)

/-- An `expression` wrapping a single `term`. -/
def exprOfTerm (t : Term) : Expression :=
  exprOfOr ⟨⟨⟨⟨t, []⟩, []⟩, []⟩, []⟩

/-- An `expression` wrapping a single `comparison`. -/
def exprOfComp (c : Comparison) : Expression :=
  exprOfOr ⟨⟨⟨c, []⟩, []⟩, []⟩

/-- An `expression` that is just a primary. -/
def exprOfPrim (p : Prim) : Expression := exprOfTerm (termOfPrim p)

/-- The term `p + q` for two primaries. -/
def termAdd (p q : Prim) : Term :=
  ⟨factorOfPrim p, [("+", factorOfPrim q)]⟩

/-- The comparison `p < q` for two primaries. -/
def compLt (p q : Prim) : Comparison :=
  ⟨termOfPrim p, [("<", termOfPrim q)]⟩

/-! ## Symbols and scopes

`Model.symbol_table`, `Model.object_types` and `Model.scope` are not in
the repository; the structures below are modelled from the spec's data
model and Scope Manager contract, specialized to how `Driver.py` uses
them (`get_symbol`, `add_symbol`, `current_scope`). -/

/-- A symbol-table entry: the `Symbol` name together with the `Variable`
object's `data_type` field it wraps (`PyVal.none` models the Python
`None` the `Variable` starts with) and the declaring scope's id.
Modelled from the spec: `Model.symbol_table.Symbol` /
`Model.object_types.Variable` are not in the repository. -/
structure Symbol where
  name : String
  dataType : PyVal
  scopeLevel : Nat
deriving DecidableEq, Repr

/-- A scope: its id and its own bindings, in insertion order.
Modelled from the spec: `Model.scope` is not in the repository. -/
structure Scope where
  id : Nat
  syms : List Symbol
deriving DecidableEq, Repr

/-- The scope manager: the stack of active scopes, innermost first,
global scope last. Modelled from the spec: `Model.scope.ScopeManager` is
not in the repository; per the spec the global scope exists from
construction and the stack is never empty during analysis. -/
structure ScopeManager where
  stack : List Scope
deriving DecidableEq, Repr

/-- A fresh scope manager holding only the global scope (id 0). -/
def ScopeManager.init : ScopeManager := ⟨[⟨0, []⟩]⟩

/-- The id of the current (innermost) scope. -/
def ScopeManager.currentScopeId (sm : ScopeManager) : Nat :=
  match sm.stack with
  | [] => 0
  | sc :: _ => sc.id

/-- Operation `get_symbol`: looks a name up in the current scope's own bindings
only. Modelled from the spec: the duplicate check of `declare` consults
only the current scope (parents are not checked — shadowing is legal),
matching the comment at Driver.py 37. -/
def ScopeManager.get_symbol (sm : ScopeManager) (n : String) : Option Symbol :=
  match sm.stack with
  | [] => Option.none
  | sc :: _ => sc.syms.find? (fun s => s.name == n)

/-- Operation `add_symbol`: appends a symbol to the current scope's bindings.
Modelled from the spec: `declare` inserts into the current scope and
never mutates enclosing scopes. -/
def ScopeManager.add_symbol (sm : ScopeManager) (s : Symbol) : ScopeManager :=
  match sm.stack with
  | [] => sm
  | sc :: rest => ⟨{ sc with syms := sc.syms ++ [s] } :: rest⟩

/-- Mutation of the just-declared `Variable`'s `data_type`
(Driver.py 55): the `Symbol` in the current scope named `n` holds a
reference to that `Variable`, so the update lands on the current scope's
entry and touches no enclosing scope. -/
def ScopeManager.setCurrentType (sm : ScopeManager) (n : String) (t : PyVal) :
    ScopeManager :=
  match sm.stack with
  | [] => sm
  | sc :: rest =>
    ⟨{ sc with
        syms := sc.syms.map (fun s =>
          if s.name == n then { s with dataType := t } else s) } :: rest⟩

/-- Operation `resolve`: searches the current scope, then each parent outward,
returning the first match. Modelled from the spec: §4.2's
`resolve(name) -> Symbol`, failing (here: `Option.none`, standing for
`UndefinedReferenceError`) when no scope in the chain binds the name. -/
def ScopeManager.resolve (sm : ScopeManager) (n : String) : Option Symbol :=
  sm.stack.findSome? (fun sc => sc.syms.find? (fun s => s.name == n))

/-- Operation `enterScope`: pushes a new empty scope on top of the stack. -/
def ScopeManager.enterScope (sm : ScopeManager) (newId : Nat) : ScopeManager :=
  ⟨⟨newId, []⟩ :: sm.stack⟩

/-- A `varDecl` node: the `IDENTIFIER` text and the optional initializer
expression. -/
structure VarDecl where
  name : String
  initializer : Option Expression
deriving DecidableEq, Repr

/-- Steps 44-48 of `visitVarDecl`: create a `Variable` with
`data_type=None`, wrap it in a `Symbol` and add it to the current scope. -/
def declareNew (sm : ScopeManager) (n : String) : ScopeManager :=
  sm.add_symbol ⟨n, .none, sm.currentScopeId⟩

/-- Method `visitVarDecl` (Driver.py 31-61): checks `get_symbol` and raises a
generic `Exception` on a hit; otherwise creates a `Variable` with
`data_type=None`, wraps it in a `Symbol`, adds it to the current scope,
and only then — if an initializer is present — visits the initializer and
assigns the resulting value to the `Variable`'s `data_type`. An exception
(the redeclaration, or a `TypeError` raised while visiting the
initializer) propagates, carrying the scope-manager state as it stood
when the exception was raised. -/
def visitVarDecl (d : VarDecl) (sm : ScopeManager) :
    Except (PyErr × ScopeManager) ScopeManager :=
  match sm.get_symbol d.name with
  | some _ => .error (.redecl d.name, sm)
  | Option.none =>
    match d.initializer with
    | Option.none => .ok (declareNew sm d.name)
    | some e =>
      match visitExpression e with
      | .error err => .error (err, declareNew sm d.name)
      | .ok t => .ok ((declareNew sm d.name).setCurrentType d.name t)

/-- A `declaration` node: a `varDecl` child, or some other declaration
kind (which `visitDeclaration`, Driver.py 25-29, skips). -/
inductive Declaration
  | ofVar (d : VarDecl)
  | other
deriving DecidableEq, Repr

/-- Method `visitDeclaration` (Driver.py 25-29). -/
def visitDeclaration (dec : Declaration) (sm : ScopeManager) :
    Except (PyErr × ScopeManager) ScopeManager :=
  match dec with
  | .ofVar d => visitVarDecl d sm
  | .other => .ok sm

/-- Method `visitProgram` (Driver.py 20-23): visits the declarations in order;
an uncaught exception aborts the walk, leaving later declarations
unvisited. -/
def visitProgram (ds : List Declaration) (sm : ScopeManager) :
    Except (PyErr × ScopeManager) ScopeManager :=
  match ds with
  | [] => .ok sm
  | d :: rest =>
    match visitDeclaration d sm with
    | .error e => .error e
    | .ok sm2 => visitProgram rest sm2

/-! ## The spec's type system, for comparison with the code -/

/-- The spec's closed type variant (§3): `Num`, `String`, `Boolean`,
`Nil`, `Unknown`, `Error`. Modelled from the spec's words, to state what
the claims demand of the code. -/
inductive SType
  | Num
  | Str
  | Boolean
  | Nil
  | Unknown
  | Err
deriving DecidableEq, Repr

/-- Modelled from the spec: §4.1's rule for the boolean connectives
`and`/`or` — `Error` is absorbing; any concretely non-Boolean operand
gives `Error`; `Unknown` propagates `Unknown`; two `Boolean`s give
`Boolean`. -/
def specLogicRule (a b : SType) : SType :=
  if a = .Err ∨ b = .Err then .Err
  else if a = .Num ∨ a = .Str ∨ a = .Nil ∨ b = .Num ∨ b = .Str ∨ b = .Nil then .Err
  else if a = .Unknown ∨ b = .Unknown then .Unknown
  else .Boolean

/-- Modelled from the spec: §4.4's pure left fold of the type rule over a
layer's operand types. -/
def specLogicFold (t : SType) (ts : List SType) : SType :=
  ts.foldl specLogicRule t

/-- A `logic_and` node that is a single `term`. -/
def andOfTerm (t : Term) : LogicAnd := ⟨⟨⟨t, []⟩, []⟩, []⟩

/-- All symbols currently held anywhere in the scope stack. -/
def ScopeManager.allSyms (sm : ScopeManager) : List Symbol :=
  sm.stack.flatMap Scope.syms

/-! ## Helper lemmas -/

/-- Visiting a single-primary expression chain yields the primary's
value: every layer has one operand, so each loop body never runs. -/
theorem exprOfPrim_eval (p : Prim) :
    visitExpression (exprOfPrim p) = .ok (visitPrimary p) := rfl

/-- Updating the type of a name that no symbol of the list carries is
invisible to `find?` on that name. -/
theorem find?_name_after_map (x : String) (t : PyVal) (l : List Symbol)
    (h : ∀ s ∈ l, (s.name == x) = false) :
    (l.map (fun s => if s.name == x then { s with dataType := t } else s)).find?
      (fun s => s.name == x) = Option.none := by
  induction l with
  | nil => rfl
  | cons a l ih =>
    have ha := h a (by simp)
    simp only [List.map_cons]
    rw [List.find?_cons_of_neg]
    · exact ih fun s hs => h s (by simp [hs])
    · simp [ha]

/-- Appending a new symbol to the current scope keeps every existing
symbol of the table. -/
theorem mem_allSyms_add (sm : ScopeManager) (s0 : Symbol) :
    ∀ s ∈ sm.allSyms, s ∈ (sm.add_symbol s0).allSyms := by
  rcases sm with ⟨stack⟩
  cases stack with
  | nil => intro s hs; simp [ScopeManager.allSyms] at hs
  | cons sc rest =>
    intro s hs
    simp only [ScopeManager.allSyms, ScopeManager.add_symbol, List.flatMap_cons,
      List.mem_append] at hs ⊢
    rcases hs with hsc | hrest
    · exact Or.inl (Or.inl hsc)
    · exact Or.inr hrest

/-- Declaring a fresh name and then assigning its type keeps every
pre-existing symbol of the table, with its exact `data_type`. -/
theorem mem_after_declare_set (sm : ScopeManager) (n : String) (lvl : Nat)
    (t : PyVal) (hg : sm.get_symbol n = Option.none) :
    ∀ s ∈ sm.allSyms,
      s ∈ ((sm.add_symbol ⟨n, .none, lvl⟩).setCurrentType n t).allSyms := by
  rcases sm with ⟨stack⟩
  cases stack with
  | nil => intro s hs; simp [ScopeManager.allSyms] at hs
  | cons sc rest =>
    intro s hs
    simp only [ScopeManager.get_symbol] at hg
    simp only [ScopeManager.allSyms, ScopeManager.add_symbol,
      ScopeManager.setCurrentType, List.flatMap_cons, List.mem_append] at hs ⊢
    rcases hs with hsc | hrest
    · have hname : (s.name == n) = false := by
        have := List.find?_eq_none.mp hg s hsc
        simpa using this
      refine Or.inl (List.mem_map.mpr ⟨s, List.mem_append.mpr (Or.inl hsc), ?_⟩)
      simp [hname]
    · exact Or.inr hrest

/-- A successful `visitVarDecl` keeps every pre-existing symbol of the
table, with its exact `data_type`. -/
theorem visitVarDecl_preserves (d : VarDecl) (sm sm2 : ScopeManager)
    (hok : visitVarDecl d sm = .ok sm2) :
    ∀ s ∈ sm.allSyms, s ∈ sm2.allSyms := by
  intro s hs
  unfold visitVarDecl at hok
  cases hg : sm.get_symbol d.name with
  | some s0 => rw [hg] at hok; exact absurd hok (by simp)
  | none =>
    rw [hg] at hok
    cases hi : d.initializer with
    | none =>
      rw [hi] at hok
      cases hok
      exact mem_allSyms_add sm _ s hs
    | some e =>
      rw [hi] at hok
      dsimp only at hok
      cases he : visitExpression e with
      | error err => rw [he] at hok; exact absurd hok (by simp)
      | ok t =>
        rw [he] at hok
        cases hok
        exact mem_after_declare_set sm d.name sm.currentScopeId t hg s hs

/-- A successful `visitDeclaration` keeps every pre-existing symbol. -/
theorem visitDeclaration_preserves (dec : Declaration) (sm sm2 : ScopeManager)
    (hok : visitDeclaration dec sm = .ok sm2) :
    ∀ s ∈ sm.allSyms, s ∈ sm2.allSyms := by
  cases dec with
  | ofVar d => exact visitVarDecl_preserves d sm sm2 hok
  | other =>
    cases hok
    exact fun s hs => hs

/-- A successful `visitProgram` keeps every pre-existing symbol, with its
exact `data_type`. -/
theorem visitProgram_preserves (ds : List Declaration) :
    ∀ sm sm2, visitProgram ds sm = .ok sm2 → ∀ s ∈ sm.allSyms, s ∈ sm2.allSyms := by
  induction ds with
  | nil =>
    intro sm sm2 h s hs
    simp only [visitProgram] at h
    cases h
    exact hs
  | cons d rest ih =>
    intro sm sm2 h s hs
    unfold visitProgram at h
    cases hd : visitDeclaration d sm with
    | error e => rw [hd] at h; exact absurd h (by simp)
    | ok sm3 =>
      rw [hd] at h
      exact ih sm3 sm2 h s (visitDeclaration_preserves d sm sm3 hd s hs)

/-! ## Concrete states used by witnesses -/

/-- A scope manager whose one (global) scope already binds `x` to `Num`. -/
def smWithX : ScopeManager := ⟨[⟨0, [⟨"x", .ty .NumT, 0⟩]⟩]⟩

/-- A scope manager inside a nested scope (id 1) whose enclosing global
scope binds `x` to `Num`. -/
def smNested : ScopeManager := ⟨[⟨1, []⟩, ⟨0, [⟨"x", .ty .NumT, 0⟩]⟩]⟩

/-! ## The claims -/

/-- C1: the claim says `or`/`and` are computed as a pure left fold of the
boolean-connective type rule with no branching on truthiness. The code
instead applies Python `or`/`and` to the type markers and breaks out of
the loop on the accumulator's truthiness: `false or "x"` (operand types
Boolean, String) yields `Boolean` where the spec's fold yields `Error`;
`true or true or (1 + 2)` short-circuits past a third operand whose visit
would raise `TypeError`; `1 and true` yields `Boolean` where the fold
yields `Error`. -/
theorem c1_logic_layers_shortcircuit_on_truthiness :
    visitLogic_or ⟨andOfPrim (.word "false"), [andOfPrim .strLit]⟩ = .ok (.ty .BooleanT)
    ∧ specLogicFold .Boolean [.Str] = .Err
    ∧ visitLogic_or ⟨andOfPrim (.word "true"),
        [andOfPrim (.word "true"), andOfTerm (termAdd .num .num)]⟩ = .ok (.ty .BooleanT)
    ∧ visitLogic_and (andOfTerm (termAdd .num .num)) = .error .typeError
    ∧ specLogicFold .Boolean [.Boolean, .Num] = .Err
    ∧ visitLogic_and ⟨eqOfPrim .num, [eqOfPrim (.word "true")]⟩ = .ok (.ty .BooleanT)
    ∧ specLogicFold .Num [.Boolean] = .Err :=
  ⟨rfl, rfl, rfl, rfl, rfl, rfl, rfl⟩

/-- C2: the claim says an identifier primary is typed as
`resolve(name).type` (with `UndefinedReferenceError` when unbound) and
that untyped primaries yield the first-class `Unknown` variant. The code
has no identifier branch at all: an identifier primary falls into the
`else` and yields the Python *string* `"Unknown"`, never consulting any
scope (`visitPrimary` does not even take the scope manager). -/
theorem c2_identifier_primary_is_sentinel :
    visitPrimary (.word "x") = .str "Unknown"
    ∧ visitExpression (exprOfPrim (.word "x")) = .ok (.str "Unknown") :=
  ⟨rfl, rfl⟩

/-- C3: the claim says expression-time type errors produce the `Error`
type, analysis always completes, and one bad sub-expression never blocks
the rest of the tree. In the code `1 + "a"` raises an uncaught
`TypeError` that aborts the whole walk: the program
`var x = 1 + "a"; var y = 2` stops inside the first declaration (with
`x` still untyped) and `y` is never declared; no diagnostic list exists. -/
theorem c3_type_error_aborts_analysis :
    visitProgram
      [.ofVar ⟨"x", some (exprOfTerm (termAdd .num .strLit))⟩,
       .ofVar ⟨"y", some (exprOfPrim .num)⟩] ScopeManager.init
      = .error (.typeError, ⟨[⟨0, [⟨"x", .none, 0⟩]⟩]⟩)
    ∧ (ScopeManager.mk [⟨0, [⟨"x", .none, 0⟩]⟩]).resolve "y" = Option.none :=
  ⟨rfl, rfl⟩

/-- C4: the claim says a relational expression on two `Num` operands has
type `Boolean` (in particular `1 < 2`), anything else `Error`. The code
applies Python `<`/`>` to the `NumType` marker objects, which raises an
uncaught `TypeError` for `1 < 2` and for mismatched operands alike. -/
theorem c4_relational_raises_type_error :
    visitExpression (exprOfComp (compLt .num .num)) = .error .typeError
    ∧ visitExpression (exprOfComp ⟨termOfPrim .strLit, [(">", termOfPrim .num)]⟩)
      = .error .typeError :=
  ⟨rfl, rfl⟩

/-- C5: the claim says `+ - * / %` on two `Num` operands yield `Num`
(in particular `1 + 2`), and `1 + "a"` yields `Error` with exactly one
`TypeMismatchError` diagnostic. The code applies the Python operators to
the marker objects: `1 + 2`, `1 - 2`, `1 * 2` and `1 + "a"` all raise an
uncaught `TypeError`; no `Num`/`Error` type and no diagnostic is ever
produced. -/
theorem c5_additive_multiplicative_raise :
    visitExpression (exprOfTerm (termAdd .num .num)) = .error .typeError
    ∧ visitExpression (exprOfTerm (termAdd .num .strLit)) = .error .typeError
    ∧ visitExpression (exprOfTerm ⟨factorOfPrim .num, [("-", factorOfPrim .num)]⟩)
      = .error .typeError
    ∧ visitFactor ⟨unaryOfPrim .num, [("*", unaryOfPrim .num)]⟩ = .error .typeError :=
  ⟨rfl, rfl, rfl, rfl⟩

/-- C6: declaring a name already bound in the current scope yields
exactly one redeclaration error, raised immediately to the caller before
anything is mutated — the scope-manager state carried out with the
exception is exactly the input state, so the original symbol's type and
binding are untouched. -/
theorem c6_redeclaration_immediate_error (sm : ScopeManager) (d : VarDecl)
    (h : (sm.get_symbol d.name).isSome = true) :
    visitVarDecl d sm = .error (.redecl d.name, sm) := by
  unfold visitVarDecl
  cases hg : sm.get_symbol d.name with
  | some s0 => rfl
  | none => rw [hg] at h; simp at h

/-- Witness for C6 at a concrete state: the global scope binds `x` to
`Num`; a second `var x` errors and leaves the state exactly as it was. -/
theorem c6_redeclaration_witness :
    visitVarDecl ⟨"x", Option.none⟩ smWithX = .error (.redecl "x", smWithX) :=
  c6_redeclaration_immediate_error smWithX ⟨"x", Option.none⟩ rfl

/-- C7: the duplicate check consults only the current scope's own
bindings, so declaring a name that exists only in an enclosing scope
(shadowing) succeeds without any error, whether or not an initializer is
present — for any state whose current scope does not bind the name. -/
theorem c7_shadowing_checks_current_scope_only (sm : ScopeManager) (x : String)
    (h : sm.get_symbol x = Option.none) :
    visitVarDecl ⟨x, Option.none⟩ sm = .ok (declareNew sm x)
    ∧ ∀ p : Prim, visitVarDecl ⟨x, some (exprOfPrim p)⟩ sm
        = .ok ((declareNew sm x).setCurrentType x (visitPrimary p)) := by
  constructor
  · unfold visitVarDecl
    rw [h]
  · intro p
    unfold visitVarDecl
    rw [h]
    dsimp only
    rw [exprOfPrim_eval p]

/-- Witness for C7 at a concrete state: inside scope 1 the enclosing
global scope binds `x`; redeclaring `x` (with and without an
initializer) succeeds. -/
theorem c7_shadowing_witness :
    visitVarDecl ⟨"x", Option.none⟩ smNested = .ok (declareNew smNested "x")
    ∧ visitVarDecl ⟨"x", some (exprOfPrim .num)⟩ smNested
      = .ok ((declareNew smNested "x").setCurrentType "x" (visitPrimary .num)) :=
  ⟨(c7_shadowing_checks_current_scope_only smNested "x" rfl).1,
   (c7_shadowing_checks_current_scope_only smNested "x" rfl).2 .num⟩

/-- C8: a declared symbol's type starts as `None` (the code's `Unknown`)
and stays so until the initializer has been type-checked — even when the
initializer's visit raises, the aborted state still holds the symbol
untyped; with a well-typed initializer the type is assigned exactly once;
a declaration without initializer is not an error and leaves the type
untyped; and once a symbol exists, no later successful analysis step ever
mutates it — every pre-existing symbol survives any `visitProgram` run
with its exact type. -/
theorem c8_type_assigned_once_and_terminal (sm : ScopeManager) (x : String)
    (e : Expression) (hfresh : sm.get_symbol x = Option.none) :
    visitVarDecl ⟨x, Option.none⟩ sm = .ok (declareNew sm x)
    ∧ (∀ err, visitExpression e = .error err →
        visitVarDecl ⟨x, some e⟩ sm = .error (err, declareNew sm x))
    ∧ (∀ t, visitExpression e = .ok t →
        visitVarDecl ⟨x, some e⟩ sm = .ok ((declareNew sm x).setCurrentType x t))
    ∧ (∀ ds sm1 sm2, visitProgram ds sm1 = .ok sm2 →
        ∀ s ∈ sm1.allSyms, s ∈ sm2.allSyms) := by
  refine ⟨?_, ?_, ?_, ?_⟩
  · unfold visitVarDecl
    rw [hfresh]
  · intro err he
    unfold visitVarDecl
    rw [hfresh]
    dsimp only
    rw [he]
  · intro t ht
    unfold visitVarDecl
    rw [hfresh]
    dsimp only
    rw [ht]
  · intro ds sm1 sm2 h
    exact visitProgram_preserves ds sm1 sm2 h

/-- Witness for C8 at concrete inputs: a fresh `x` in the initial state,
with the initializer `1` (its visit succeeds with `NumType`), so the
exactly-once assignment conjunct fires at `t = NumType`. -/
theorem c8_witness :
    visitVarDecl ⟨"x", some (exprOfPrim .num)⟩ ScopeManager.init
      = .ok ((declareNew ScopeManager.init "x").setCurrentType "x" (.ty .NumT)) :=
  (c8_type_assigned_once_and_terminal ScopeManager.init "x" (exprOfPrim .num)
    rfl).2.2.1 (.ty .NumT) rfl

/-- C9: declaring `var x = <literal>` with a numeric, string, boolean or
nil literal and then resolving `x` yields the literal's type: for any
state whose current scope is fresh for `x` and any primary whose visit
yields the marker `t`, the declaration succeeds and `resolve x` returns a
symbol whose `data_type` is `t` (resolution prefers the innermost
scope). -/
theorem c9_literal_decl_then_resolve (sm : ScopeManager) (x : String) (p : Prim)
    (t : Ty) (hfresh : sm.get_symbol x = Option.none) (hne : sm.stack ≠ [])
    (hlit : visitPrimary p = .ty t) :
    visitVarDecl ⟨x, some (exprOfPrim p)⟩ sm
      = .ok ((declareNew sm x).setCurrentType x (.ty t))
    ∧ (((declareNew sm x).setCurrentType x (.ty t)).resolve x).map Symbol.dataType
      = some (.ty t) := by
  constructor
  · unfold visitVarDecl
    rw [hfresh]
    dsimp only
    rw [exprOfPrim_eval p, hlit]
  · rcases sm with ⟨stack⟩
    cases stack with
    | nil => exact absurd rfl hne
    | cons sc rest =>
      simp only [ScopeManager.get_symbol] at hfresh
      have hall : ∀ s ∈ sc.syms, (s.name == x) = false := by
        intro s hs
        have := List.find?_eq_none.mp hfresh s hs
        simpa using this
      simp only [declareNew, ScopeManager.add_symbol, ScopeManager.setCurrentType,
        ScopeManager.resolve, ScopeManager.currentScopeId, List.map_append,
        List.findSome?_cons]
      rw [List.find?_append, find?_name_after_map x (.ty t) sc.syms hall]
      simp

/-- Witness for C9 at concrete inputs: `var x = 1` in the initial state,
then `resolve "x"` yields `NumType`. -/
theorem c9_witness :
    visitVarDecl ⟨"x", some (exprOfPrim .num)⟩ ScopeManager.init
      = .ok ((declareNew ScopeManager.init "x").setCurrentType "x" (.ty .NumT))
    ∧ (((declareNew ScopeManager.init "x").setCurrentType "x"
        (.ty .NumT)).resolve "x").map Symbol.dataType = some (.ty .NumT) :=
  c9_literal_decl_then_resolve ScopeManager.init "x" .num .NumT rfl
    (by simp [ScopeManager.init]) rfl

/-- C10: a unary node carrying a prefix operator (`!` or `-`) makes
`visitUnary` return Python `None` (only the call branch is handled), an
expression without an assignment child and an assignment without a
`logic_or` child likewise yield `None`, and that `None` is then fed as an
operand to the enclosing multiplicative, additive, relational, equality
and logical layers. -/
theorem c10_unhandled_branches_yield_none :
    visitUnary (.unop "!") = .none
    ∧ visitUnary (.unop "-") = .none
    ∧ visitExpression .noAssign = .ok .none
    ∧ visitAssignment .assignForm = .ok .none
    ∧ visitFactor ⟨.unop "-", [("*", unaryOfPrim .num)]⟩
      = pyNumericOp .none (.ty .NumT)
    ∧ visitTerm ⟨⟨.unop "!", []⟩, [("+", factorOfPrim .num)]⟩
      = pyAdd .none (.ty .NumT)
    ∧ visitComparison ⟨⟨⟨.unop "-", []⟩, []⟩, [("<", termOfPrim .num)]⟩
      = pyLt .none (.ty .NumT)
    ∧ visitEquality ⟨⟨⟨⟨.unop "!", []⟩, []⟩, []⟩, [("==", compOfPrim .num)]⟩
      = .ok (applyEqOp "==" .none (.ty .NumT))
    ∧ visitLogic_or ⟨⟨⟨⟨⟨⟨.unop "!", []⟩, []⟩, []⟩, []⟩, []⟩,
        [andOfPrim (.word "true")]⟩ = .ok (pyOr .none (.ty .BooleanT)) :=
  ⟨rfl, rfl, rfl, rfl, rfl, rfl, rfl, rfl, rfl⟩

end Compiscript
